import Mathlib

/-!
Shallow embedding of `yarpl/include/yarpl/single/SingleOperator.h`.

The C++ fragment defines the operator-chaining core of the `Single`
abstraction: `SingleOperator<U, D>::SingleSubscription` (the bridge between
two pipeline stages), `MapOperator<U, D, F>` with its specialized
`onSuccess`, and `FromPublisherOperator<T, OnSubscribe>`.

Modelling choices:
  * A bridge's mutable fields are modelled by `BridgeState`:
    `subscriberHeld` is `true` while the `subscriber_` `Reference` is
    non-null (set in the constructor, reset only in the destructor), and
    `upstreamHeld` is `true` while `upstreamSubscription_` is non-null
    (set in `onSubscribe`, reset in `onError` and in the map operator's
    `onSuccess`; `cancel` does not touch it).
  * Calls the bridge makes on its downstream consumer are recorded as
    `DownEvent`s; `cancel()` calls it forwards to the stored upstream
    handle are counted.
  * The map operator's transform is `U → Except E D`: `Except.error`
    models the C++ function throwing, which in
    `subscriber->onSuccess(map->function_(std::move(value)))` happens
    before the downstream call and before the `reset()` of the upstream
    handle.
  * Dereferencing a null `upstreamSubscription_` in `cancel()` is
    undefined behaviour in C++; the model returns `none` (a fault) there.
-/

namespace YarplSingle

/-- Calls a bridge makes on its downstream `SingleObserver`. -/
inductive DownEvent (D E : Type) : Type where
  | onSubscribe : DownEvent D E
  | onSuccess (value : D) : DownEvent D E
  | onError (error : E) : DownEvent D E
deriving DecidableEq, Repr

/-- Calls arriving at a bridge: `onSubscribe`/`onSuccess`/`onError` from the
upstream stage, `cancel` from the downstream consumer. -/
inductive BridgeCall (U E : Type) : Type where
  | onSubscribe : BridgeCall U E
  | onSuccess (value : U) : BridgeCall U E
  | onError (error : E) : BridgeCall U E
  | cancel : BridgeCall U E
deriving DecidableEq, Repr

/-- Which of a bridge's two `Reference` fields are currently non-null. -/
structure BridgeState : Type where
  subscriberHeld : Bool
  upstreamHeld : Bool
deriving DecidableEq, Repr

/-- State right after the constructor ran: `subscriber_` stored,
`upstreamSubscription_` still null. -/
def BridgeState.init : BridgeState := ⟨true, false⟩

/-- `upstreamSubscription_ = std::move(subscription)`. -/
def storeUpstream (s : BridgeState) : BridgeState :=
  { s with upstreamHeld := true }

/-- `SingleOperator::SingleSubscription::onSubscribe`: stores the upstream
handle, then calls `subscriber_->onSubscribe(this)`.  The returned state is
the one the downstream consumer observes while being notified. -/
def SingleSubscription.onSubscribe {D E : Type} (s : BridgeState) :
    BridgeState × DownEvent D E :=
  (storeUpstream s, DownEvent.onSubscribe)

/-- `SingleOperator::SingleSubscription::onError`: calls
`subscriber_->onError(error)`, then `upstreamSubscription_.reset()`. -/
def SingleSubscription.onError {D E : Type} (e : E) (s : BridgeState) :
    BridgeState × DownEvent D E :=
  ({ s with upstreamHeld := false }, DownEvent.onError e)

/-- `SingleOperator::SingleSubscription::cancel`:
`upstreamSubscription_->cancel()`.  It forwards one `cancel` and leaves
both fields untouched; on a null handle it faults (`none`). -/
def SingleSubscription.cancel (s : BridgeState) :
    Option (BridgeState × Nat) :=
  if s.upstreamHeld then some (s, 1) else none

/-- `SingleOperator::SingleSubscription::~SingleSubscription`:
`subscriber_.reset()`. -/
def SingleSubscription.dtor (s : BridgeState) : BridgeState :=
  { s with subscriberHeld := false }

/-- `MapOperator::SingleSubscription::onSuccess`: evaluates
`map->function_(std::move(value))`; if that returns, delivers the result
via `subscriber->onSuccess(...)` and then resets
`upstreamSubscription_`; if it throws, nothing is delivered, nothing is
reset, and the exception propagates to the caller. -/
def MapOperator.onSuccess {U D E : Type} (f : U → Except E D) (v : U)
    (s : BridgeState) : Except E (BridgeState × DownEvent D E) :=
  match f v with
  | Except.ok d => Except.ok ({ s with upstreamHeld := false }, DownEvent.onSuccess d)
  | Except.error ex => Except.error ex

/-- Observable outcome of driving a map-operator bridge through a sequence
of calls: events delivered downstream, `cancel`s forwarded upstream, final
field state, an exception escaping to the caller, and whether a null
dereference happened. -/
structure RunResult (D E : Type) : Type where
  down : List (DownEvent D E)
  upCancels : Nat
  state : BridgeState
  thrown : Option E
  fault : Bool
deriving DecidableEq, Repr

/-- One call on a `MapOperator` bridge, dispatched to the method bodies
above. -/
def mapStep {U D E : Type} (f : U → Except E D) (s : BridgeState) :
    BridgeCall U E → RunResult D E
  | BridgeCall.onSubscribe =>
      let p := SingleSubscription.onSubscribe (D := D) (E := E) s
      ⟨[p.2], 0, p.1, none, false⟩
  | BridgeCall.onSuccess v =>
      match MapOperator.onSuccess f v s with
      | Except.ok p => ⟨[p.2], 0, p.1, none, false⟩
      | Except.error ex => ⟨[], 0, s, some ex, false⟩
  | BridgeCall.onError e =>
      let p := SingleSubscription.onError (D := D) e s
      ⟨[p.2], 0, p.1, none, false⟩
  | BridgeCall.cancel =>
      match SingleSubscription.cancel s with
      | some p => ⟨[], p.2, p.1, none, false⟩
      | none => ⟨[], 0, s, none, true⟩

/-- Drive a `MapOperator` bridge through a call script.  An escaping
exception or a fault stops the run (in C++ control leaves the emitting
frame). -/
def runMapCalls {U D E : Type} (f : U → Except E D) :
    List (BridgeCall U E) → BridgeState → RunResult D E
  | [], s => ⟨[], 0, s, none, false⟩
  | c :: rest, s =>
      let r := mapStep f s c
      if r.thrown.isSome || r.fault then r
      else
        let r2 := runMapCalls f rest r.state
        ⟨r.down ++ r2.down, r.upCancels + r2.upCancels, r2.state, r2.thrown, r2.fault⟩

/-- A pure (never-throwing) transform, as used when `f` is a total C++
callable. -/
def pureF {U D E : Type} (f : U → D) : U → Except E D :=
  fun u => Except.ok (f u)

/-- Arguments of the `onSuccess` calls in a downstream trace, in order. -/
def successValues {D E : Type} : List (DownEvent D E) → List D
  | [] => []
  | DownEvent.onSuccess d :: rest => d :: successValues rest
  | _ :: rest => successValues rest

/-- Arguments of the `onError` calls in a downstream trace, in order. -/
def errorValues {D E : Type} : List (DownEvent D E) → List E
  | [] => []
  | DownEvent.onError e :: rest => e :: errorValues rest
  | _ :: rest => errorValues rest

/-- A downstream event is terminal when it is `onSuccess` or `onError`. -/
def DownEvent.isTerminal {D E : Type} : DownEvent D E → Bool
  | DownEvent.onSubscribe => false
  | DownEvent.onSuccess _ => true
  | DownEvent.onError _ => true

/-- An upstream call is terminal when it is `onSuccess` or `onError`. -/
def BridgeCall.isTerminal {U E : Type} : BridgeCall U E → Bool
  | BridgeCall.onSuccess _ => true
  | BridgeCall.onError _ => true
  | _ => false

/-- Number of terminal events in a downstream trace. -/
def terminalCount {D E : Type} (l : List (DownEvent D E)) : Nat :=
  (l.filter DownEvent.isTerminal).length

/-- What a bridge's downstream consumer receives, re-read as the call
script for the next bridge in a chain (a bridge never calls `cancel` on
its downstream consumer). -/
def eventToCall {D E : Type} : DownEvent D E → BridgeCall D E
  | DownEvent.onSubscribe => BridgeCall.onSubscribe
  | DownEvent.onSuccess d => BridgeCall.onSuccess d
  | DownEvent.onError e => BridgeCall.onError e

/-- `FromPublisherOperator::subscribe`: `function_(std::move(subscriber))`
and nothing else. -/
def FromPublisherOperator.subscribe {α β : Type} (function_ : α → β)
    (subscriber : α) : β :=
  function_ subscriber

/-- The consumer interface, for exercising `FromPublisherOperator` with a
recording consumer: each method yields the trace it contributes. -/
structure SingleObserver (T E τ : Type) : Type where
  onSubscribe : τ
  onSuccess : T → τ
  onError : E → τ

/-- A consumer that records every call made on it. -/
def recorder (T E : Type) : SingleObserver T E (List (DownEvent T E)) :=
  ⟨[DownEvent.onSubscribe], fun v => [DownEvent.onSuccess v],
    fun e => [DownEvent.onError e]⟩

/-- The wrapped callback of the spec scenario: it immediately calls
`consumer.onSubscribe(handle)` and then `consumer.onSuccess(7)`. -/
def scenarioCallback
    (c : SingleObserver Nat Nat (List (DownEvent Nat Nat))) :
    List (DownEvent Nat Nat) :=
  c.onSubscribe ++ c.onSuccess 7

/-- Any single call on a map bridge leaves `subscriberHeld` unchanged: no
method body touches `subscriber_` (only the destructor does). -/
theorem mapStep_subscriberHeld {U D E : Type} (f : U → Except E D)
    (s : BridgeState) (c : BridgeCall U E) :
    (mapStep f s c).state.subscriberHeld = s.subscriberHeld := by
  cases c with
  | onSubscribe => rfl
  | onSuccess v =>
      simp only [mapStep, MapOperator.onSuccess]
      cases f v <;> rfl
  | onError e => rfl
  | cancel =>
      simp only [mapStep, SingleSubscription.cancel]
      by_cases h : s.upstreamHeld = true <;> simp [h]

/-- Running any call script leaves `subscriberHeld` unchanged. -/
theorem runMapCalls_subscriberHeld {U D E : Type} (f : U → Except E D)
    (calls : List (BridgeCall U E)) (s : BridgeState) :
    (runMapCalls f calls s).state.subscriberHeld = s.subscriberHeld := by
  induction calls generalizing s with
  | nil => rfl
  | cons c rest ih =>
      simp only [runMapCalls]
      by_cases h : ((mapStep f s c).thrown.isSome || (mapStep f s c).fault) = true
      · simp [h, mapStep_subscriberHeld]
      · simp [h, ih, mapStep_subscriberHeld]

/-- Claim C1: subscribing a consumer to a `MapOperator` over an upstream
that subscribes the bridge and then terminates with `onSuccess v` delivers
exactly one `onSuccess` downstream, with argument `f v`, and no `onError`
and no escaping exception. -/
theorem map_success_delivers_transformed {U D E : Type} (f : U → D) (v : U) :
    successValues (runMapCalls (pureF (E := E) f)
        [BridgeCall.onSubscribe, BridgeCall.onSuccess v] BridgeState.init).down
      = [f v] ∧
    errorValues (runMapCalls (pureF (E := E) f)
        [BridgeCall.onSubscribe, BridgeCall.onSuccess v] BridgeState.init).down
      = [] ∧
    (runMapCalls (pureF (E := E) f)
        [BridgeCall.onSubscribe, BridgeCall.onSuccess v] BridgeState.init).thrown
      = none := by
  refine ⟨rfl, rfl, rfl⟩

/-- Claim C2: an upstream `onError e` is forwarded downstream as exactly
one `onError` with the same error value, no `onSuccess` happens, and the
run does not depend on the transform at all (so the transform is never
invoked). -/
theorem map_error_passthrough {U D E : Type} (f g : U → Except E D) (e : E) :
    errorValues (runMapCalls f
        [BridgeCall.onSubscribe, BridgeCall.onError e] BridgeState.init).down
      = [e] ∧
    successValues (runMapCalls f
        [BridgeCall.onSubscribe, BridgeCall.onError e] BridgeState.init).down
      = [] ∧
    runMapCalls f [BridgeCall.onSubscribe, BridgeCall.onError e] BridgeState.init
      = runMapCalls g [BridgeCall.onSubscribe, BridgeCall.onError e] BridgeState.init := by
  refine ⟨rfl, rfl, rfl⟩

/-- Claim C3: after the upstream subscribes the bridge and delivers one
terminal call (either `onSuccess` or `onError`, the transform total), the
bridge has dropped its reference to the upstream handle and has delivered
exactly one terminal event downstream. -/
theorem bridge_terminal_releases_upstream {U D E : Type} (f : U → D)
    (c : BridgeCall U E) (h : c.isTerminal = true) :
    (runMapCalls (pureF f) [BridgeCall.onSubscribe, c]
        BridgeState.init).state.upstreamHeld = false ∧
    terminalCount (runMapCalls (pureF f) [BridgeCall.onSubscribe, c]
        BridgeState.init).down = 1 := by
  cases c with
  | onSubscribe => exact absurd h (by simp [BridgeCall.isTerminal])
  | onSuccess v => exact ⟨rfl, rfl⟩
  | onError e => exact ⟨rfl, rfl⟩
  | cancel => exact absurd h (by simp [BridgeCall.isTerminal])

/-- Witness for `bridge_terminal_releases_upstream` at `f = id`,
terminal call `onError 0`, over `Nat` values and errors. -/
theorem bridge_terminal_releases_upstream_witness :
    (BridgeCall.isTerminal (BridgeCall.onError (0 : Nat) : BridgeCall Nat Nat)
        = true) ∧
    ((runMapCalls (pureF (fun n : Nat => n))
        [BridgeCall.onSubscribe, BridgeCall.onError (0 : Nat)]
        BridgeState.init).state.upstreamHeld = false ∧
      terminalCount (runMapCalls (pureF (fun n : Nat => n))
        [BridgeCall.onSubscribe, BridgeCall.onError (0 : Nat)]
        BridgeState.init).down = 1) :=
  ⟨rfl, bridge_terminal_releases_upstream (fun n : Nat => n)
    (BridgeCall.onError 0) rfl⟩

/-- Counterexample to claim C4 as stated: with the identity-plus-one
transform on `Nat`, after `onSubscribe` and a downstream `cancel()` the
bridge forwarded exactly one `cancel` upstream, yet a later upstream
`onSuccess 5` is still delivered downstream (as `onSuccess 6`): the bridge
does not suppress post-cancellation terminal events. -/
theorem cancel_does_not_suppress_later_success :
    (runMapCalls (pureF (fun n : Nat => n + 1))
        [BridgeCall.onSubscribe, BridgeCall.cancel,
          BridgeCall.onSuccess (5 : Nat)]
        (E := Nat) BridgeState.init).upCancels = 1 ∧
    successValues (runMapCalls (pureF (fun n : Nat => n + 1))
        [BridgeCall.onSubscribe, BridgeCall.cancel,
          BridgeCall.onSuccess (5 : Nat)]
        (E := Nat) BridgeState.init).down = [6] :=
  ⟨rfl, rfl⟩

/-- Claim C4, amended: a downstream `cancel()` before any terminal event
forwards exactly one `cancel` to the stored upstream handle and delivers
nothing downstream at that point; but the bridge itself does not suppress
later upstream signals — a subsequent upstream `onSuccess v` (resp.
`onError e`) is still delivered downstream as `onSuccess (f v)` (resp.
`onError e`). -/
theorem cancel_forwards_once_upstream {U D E : Type} (f : U → D) (v : U) (e : E) :
    (runMapCalls (pureF (E := E) f)
        [BridgeCall.onSubscribe, BridgeCall.cancel]
        BridgeState.init).upCancels = 1 ∧
    terminalCount (runMapCalls (pureF (E := E) f)
        [BridgeCall.onSubscribe, BridgeCall.cancel]
        BridgeState.init).down = 0 ∧
    successValues (runMapCalls (pureF (E := E) f)
        [BridgeCall.onSubscribe, BridgeCall.cancel, BridgeCall.onSuccess v]
        BridgeState.init).down = [f v] ∧
    errorValues (runMapCalls (pureF (E := E) f)
        [BridgeCall.onSubscribe, BridgeCall.cancel, BridgeCall.onError e]
        BridgeState.init).down = [e] := by
  refine ⟨rfl, rfl, rfl, rfl⟩

/-- Claim C5, behaviour at the failing input: after `onSubscribe` and a
downstream `cancel()`, the bridge forwarded the cancel but still holds the
upstream handle (`upstreamHeld = true`) — while the success and error
terminals do release it.  `cancel()` never resets
`upstreamSubscription_`. -/
theorem cancel_keeps_upstream_handle :
    (runMapCalls (pureF (fun n : Nat => n))
        [BridgeCall.onSubscribe, BridgeCall.cancel]
        (E := Nat) BridgeState.init).upCancels = 1 ∧
    (runMapCalls (pureF (fun n : Nat => n))
        [BridgeCall.onSubscribe, BridgeCall.cancel]
        (E := Nat) BridgeState.init).state.upstreamHeld = true ∧
    (runMapCalls (pureF (fun n : Nat => n))
        [BridgeCall.onSubscribe, BridgeCall.onSuccess (5 : Nat)]
        (E := Nat) BridgeState.init).state.upstreamHeld = false ∧
    (runMapCalls (pureF (fun n : Nat => n))
        [BridgeCall.onSubscribe, BridgeCall.onError (0 : Nat)]
        (E := Nat) BridgeState.init).state.upstreamHeld = false :=
  ⟨rfl, rfl, rfl, rfl⟩

/-- Claim C6: for any transforms `f` and `g` and any upstream that
subscribes and then succeeds with `v`, chaining two map bridges
(the first bridge's downstream trace replayed into the second) delivers
the same downstream trace as a single map bridge over the composition —
one `onSuccess (g (f v))` after the `onSubscribe`. -/
theorem map_map_fusion {U M D E : Type} (f : U → M) (g : M → D) (v : U) :
    (runMapCalls (pureF (E := E) g)
        ((runMapCalls (pureF (E := E) f)
            [BridgeCall.onSubscribe, BridgeCall.onSuccess v]
            BridgeState.init).down.map eventToCall)
        BridgeState.init).down
      = (runMapCalls (pureF (E := E) (fun x => g (f x)))
          [BridgeCall.onSubscribe, BridgeCall.onSuccess v]
          BridgeState.init).down := by
  rfl

/-- Counterexample to claim C7 as stated: after the bridge delivers the
terminal `onError 0` downstream, it still holds its reference to the
downstream consumer (`subscriberHeld = true`); the reference is not
released when the terminal event is delivered. -/
theorem terminal_keeps_subscriber_reference :
    (runMapCalls (pureF (fun n : Nat => n))
        [BridgeCall.onSubscribe, BridgeCall.onError (0 : Nat)]
        (E := Nat) BridgeState.init).state.subscriberHeld = true :=
  rfl

/-- Claim C7, amended: the reference to the downstream consumer is stored
at construction and retained across every call the bridge handles —
including terminal events and cancellation; it is released only by the
bridge's destructor (`subscriber_.reset()` in `~SingleSubscription`). -/
theorem subscriber_released_only_in_dtor {U D E : Type} (f : U → Except E D)
    (calls : List (BridgeCall U E)) :
    BridgeState.init.subscriberHeld = true ∧
    (runMapCalls f calls BridgeState.init).state.subscriberHeld = true ∧
    (SingleSubscription.dtor
        (runMapCalls f calls BridgeState.init).state).subscriberHeld = false := by
  refine ⟨rfl, ?_, rfl⟩
  exact runMapCalls_subscriberHeld f calls BridgeState.init

/-- Claim C8: `onSubscribe` first stores the upstream handle and then
notifies the downstream consumer, so the state at which the downstream
`onSubscribe` runs already has the handle stored; in particular a
reentrant `cancel()` from inside that notification finds the handle and
forwards exactly one `cancel` upstream instead of faulting. -/
theorem onSubscribe_stores_before_notifying {D E : Type} (s : BridgeState) :
    SingleSubscription.onSubscribe (D := D) (E := E) s
      = (storeUpstream s, DownEvent.onSubscribe) ∧
    (storeUpstream s).upstreamHeld = true ∧
    SingleSubscription.cancel (storeUpstream s) = some (storeUpstream s, 1) := by
  refine ⟨rfl, rfl, ?_⟩
  simp [SingleSubscription.cancel, storeUpstream]

/-- Claim C9: `FromPublisherOperator::subscribe` is exactly one invocation
of the stored callback on the exact consumer it was given, with no bridge
interposed; in the spec scenario — a callback that calls
`onSubscribe(handle)` then `onSuccess(7)` on its consumer — a recording
consumer observes exactly that sequence. -/
theorem fromPublisher_delegates_to_callback :
    (∀ (α β : Type) (cb : α → β) (c : α),
        FromPublisherOperator.subscribe cb c = cb c) ∧
    FromPublisherOperator.subscribe scenarioCallback (recorder Nat Nat)
      = [DownEvent.onSubscribe, DownEvent.onSuccess 7] :=
  ⟨fun _ _ _ _ => rfl, rfl⟩

/-- Claim C10: if the transform throws on the delivered value, the
downstream consumer receives no terminal event (only the earlier
`onSubscribe`), the upstream handle is not released, no `cancel` is
forwarded, and the exception escapes to the upstream caller. -/
theorem map_throwing_transform_propagates {U D E : Type}
    (f : U → Except E D) (v : U) (ex : E) (h : f v = Except.error ex) :
    (runMapCalls f [BridgeCall.onSubscribe, BridgeCall.onSuccess v]
        BridgeState.init).down = [DownEvent.onSubscribe] ∧
    (runMapCalls f [BridgeCall.onSubscribe, BridgeCall.onSuccess v]
        BridgeState.init).thrown = some ex ∧
    (runMapCalls f [BridgeCall.onSubscribe, BridgeCall.onSuccess v]
        BridgeState.init).state.upstreamHeld = true ∧
    (runMapCalls f [BridgeCall.onSubscribe, BridgeCall.onSuccess v]
        BridgeState.init).upCancels = 0 := by
  simp [runMapCalls, mapStep, MapOperator.onSuccess,
    SingleSubscription.onSubscribe, storeUpstream, h]

/-- Witness for `map_throwing_transform_propagates`: over `Nat`, the
transform that always throws `9`, applied at value `3`. -/
theorem map_throwing_transform_propagates_witness :
    ((fun _ : Nat => (Except.error 9 : Except Nat Nat)) 3
        = Except.error 9) ∧
    ((runMapCalls (fun _ : Nat => (Except.error 9 : Except Nat Nat))
        [BridgeCall.onSubscribe, BridgeCall.onSuccess 3]
        BridgeState.init).down = [DownEvent.onSubscribe] ∧
      (runMapCalls (fun _ : Nat => (Except.error 9 : Except Nat Nat))
        [BridgeCall.onSubscribe, BridgeCall.onSuccess 3]
        BridgeState.init).thrown = some 9 ∧
      (runMapCalls (fun _ : Nat => (Except.error 9 : Except Nat Nat))
        [BridgeCall.onSubscribe, BridgeCall.onSuccess 3]
        BridgeState.init).state.upstreamHeld = true ∧
      (runMapCalls (fun _ : Nat => (Except.error 9 : Except Nat Nat))
        [BridgeCall.onSubscribe, BridgeCall.onSuccess 3]
        BridgeState.init).upCancels = 0) :=
  ⟨rfl, map_throwing_transform_propagates
    (fun _ : Nat => (Except.error 9 : Except Nat Nat)) 3 9 rfl⟩

end YarplSingle
